import Mathlib

/-!
Verification of the `python-learning` repository of standalone educational
scripts. The scripts are embedded shallowly: the file system is an
association list from file names to contents, each script is a pure
function from a file system to the resulting file system together with
the transcript of lines it prints, and the stateful toy classes
(`ExpensiveComputation`, `Person`, `ResourcePool`) are embedded as
explicit state-passing functions.
-/

/-! ## File-system model

A file system is a finite map from file names to file contents,
represented as an association list. `open(name, "w")` truncates, so a
write replaces any previous entry for the same name.
-/

/-- A file system: list of (file name, file content) pairs. -/
abbrev FS := List (String × String)

/-- Look up the content of a file. -/
def fsRead : FS → String → Option String
  | [], _ => Option.none
  | (n, c) :: rest, m => if n = m then some c else fsRead rest m

/-- Remove a file (no-op when the file is absent), as `os.remove` plus the
`os.path.exists` guard used by the cleanup loop. -/
def fsRemove : FS → String → FS
  | [], _ => []
  | (n, c) :: rest, m => if n = m then fsRemove rest m else (n, c) :: fsRemove rest m

/-- Write a file, truncating any previous content (Python `open(name, "w")`
followed by `write`). -/
def fsWrite (fs : FS) (n c : String) : FS := (n, c) :: fsRemove fs n

/-- `os.path.exists`. -/
def fsExists (fs : FS) (n : String) : Bool := (fsRead fs n).isSome

/-- `if os.path.exists(f): os.remove(f)` — one step of the cleanup loop at
the end of `context_managers.py`. -/
def pyRemoveIfExists (fs : FS) (n : String) : FS :=
  if fsExists fs n then fsRemove fs n else fs

/-! ## `working_with_files.py`

The whole script: write a fixed string to `sample.txt`, read the same
file back, print the content. The file is never removed.
-/

/-- The string written to `sample.txt` by `working_with_files.py`. -/
def sampleText : String := "This is a sample file.\nLearning Python is fun!"

/-- File-system effect of `working_with_files.py`: it writes `sample.txt`
and removes nothing. -/
def workingWithFilesFS (fs : FS) : FS := fsWrite fs ("sample.txt") sampleText

/-- Printed transcript of `working_with_files.py`: the script reads back
the file it has just written and prints `File content:` followed by the
content. -/
def workingWithFilesOut (fs : FS) : List String :=
  ["File content: " ++ (fsRead (workingWithFilesFS fs) ("sample.txt")).getD ("")]

/-! ## `context_managers.py`

The script creates `test_file.txt`, `file1.txt` and `file2.txt`, prints a
fixed walkthrough transcript (one line holds a wall-clock duration, kept
as a parameter `e`), and its final cleanup loop removes the three files it
created. The `suppress(FileNotFoundError)` block opens
`nonexistent_file.txt` for reading; whether or not that file exists,
nothing is printed.
-/

/-- Lines printed by the `suppress` block of `context_managers.py`: none,
whether the file exists (content read, not printed) or not
(`FileNotFoundError` raised and suppressed). -/
def suppressOut (fs : FS) : List String :=
  match fsRead fs ("nonexistent_file.txt") with
  | some _ => []
  | Option.none => []

/-- Transcript of `context_managers.py` before the `suppress` block; `e`
stands for the elapsed-time figure printed by `timer_context`. -/
def cmOutPre (e : String) : List String :=
  ["Opening test_file.txt",
   "Closing test_file.txt",
   "",
   "Starting: Some operation",
   "Doing some work...",
   "Finished: Some operation (took " ++ e ++ " seconds)",
   "",
   "Connecting to database: users_db",
   "Working with users_db",
   "Inserting data...",
   "Querying data...",
   "Closing connection to users_db",
   "",
   "",
   "Using suppress context manager:"]

/-- Transcript of `context_managers.py` after the `suppress` block. The
`ResourcePool` demo starts from 3 resources, so `acquire` prints
`Available: 2`, yields `resource_3`, and the release prints
`Available: 3`. The two nested `FileManager`s exit in reverse order. -/
def cmOutPost : List String :=
  ["Continued after suppressed exception",
   "",
   "Using multiple context managers:",
   "Opening file1.txt",
   "Opening file2.txt",
   "Closing file2.txt",
   "Closing file1.txt",
   "",
   "Acquired resource from ConnectionPool. Available: 2",
   "Using resource_3",
   "Released resource to ConnectionPool. Available: 3"]

/-- File-system effect of `context_managers.py`: write the three test
files, then the cleanup loop removes each of them if it exists. -/
def contextManagersFS (fs : FS) : FS :=
  pyRemoveIfExists
    (pyRemoveIfExists
      (pyRemoveIfExists
        (fsWrite
          (fsWrite
            (fsWrite fs ("test_file.txt") ("Hello from custom context manager!"))
            ("file1.txt") ("Content for file 1"))
          ("file2.txt") ("Content for file 2"))
        ("test_file.txt"))
      ("file1.txt"))
    ("file2.txt")

/-- Printed transcript of `context_managers.py`. The `suppress` block runs
after `test_file.txt` has been written and closed. -/
def contextManagersOut (e : String) (fs : FS) : List String :=
  cmOutPre e
    ++ suppressOut (fsWrite fs ("test_file.txt") ("Hello from custom context manager!"))
    ++ cmOutPost

/-! ## `property_decorators.py`: `ExpensiveComputation`

The explicitly cached property: `result` recomputes only when
`_cached_result` is `None`, then stores the value. The middle component
of the returned triple records whether the expensive computation ran
(mirroring the `Computing expensive result...` print, which only the
compute branch performs).
-/

structure ExpensiveComputation where
  _data : List Int
  _cached_result : Option Int
deriving DecidableEq, Repr

/-- `ExpensiveComputation(data)`: the cache starts empty. -/
def ExpensiveComputation.init (data : List Int) : ExpensiveComputation :=
  { _data := data, _cached_result := Option.none }

/-- The `result` property: returns (value, whether the computation ran,
state after the access). `sum(x**2 for x in self._data)` is the cached
computation. -/
def ExpensiveComputation.result (s : ExpensiveComputation) :
    Int × Bool × ExpensiveComputation :=
  match s._cached_result with
  | some v => (v, false, s)
  | Option.none =>
    ((s._data.map (fun x => x ^ 2)).sum, true,
      { s with _cached_result := some ((s._data.map (fun x => x ^ 2)).sum) })

/-! ## `asyncio_concurrency.py`: `http_get`

The simulated HTTP request: a locally constructed response after an
`asyncio.sleep` of `len(url) * 0.01` seconds. Python float literals are
modelled as exact rationals. The function performs no I/O at all — the
embedding is a pure function of the url string.
-/

structure HttpResponse where
  url : String
  status : Nat
  data : String
deriving DecidableEq, Repr

/-- `http_get(url)`: the sleep delay in seconds and the returned dict. -/
def http_get (url : String) : ℚ × HttpResponse :=
  ((url.length : ℚ) * (1 / 100),
    { url := url, status := 200, data := "Response from " ++ url })

/-! ## Syntactic inventory of `asyncio_concurrency.py`

Every attribute of the `asyncio` module the script uses (transcribed from
the source: these are exactly the `asyncio.X` occurrences), the part of
the `asyncio` standard-library API relevant here, and every name the
script itself defines.
-/

def asyncioPrimitivesUsed : List String :=
  ["run", "gather", "create_task", "sleep", "wait_for",
   "TimeoutError", "CancelledError", "Semaphore", "Event", "Queue"]

def asyncioModuleAPI : List String :=
  ["run", "gather", "create_task", "sleep", "wait_for", "wait",
   "TimeoutError", "CancelledError", "Semaphore", "Event", "Queue",
   "Lock", "Condition", "Task", "Future"]

/-- Every function and class `asyncio_concurrency.py` defines (transcribed
from its `def`/`async def`/`class` statements). -/
def asyncioScriptDefinedNames : List String :=
  ["say_hello", "greet_many", "fetch_data", "process_with_tasks", "slow_operation",
   "with_timeout", "cancellable_task", "cancel_demo", "AsyncResource",
   "use_async_context", "AsyncCounter", "async_generator", "iterate_async",
   "limited_operation", "limited_concurrency", "waiter", "setter", "event_demo",
   "producer", "consumer", "producer_consumer", "might_fail", "handle_exceptions",
   "http_get", "fetch_all_urls"]

/-! ## Syntactic inventory of exceptions across the repository

`raisedExceptionTypes` transcribes the exception type of every `raise`
statement in the twenty source files (the bare `raise` at
`asyncio_concurrency.py:101` re-raises the caught
`asyncio.CancelledError`, and the bare `raise` at
`context_managers.py:69` re-raises the caught exception of the
surrounding block; `raise FrozenInstanceError` at
`dataclasses_module.py:70` sits in a comment). `classBaseAndMetaNames`
transcribes every base class and metaclass named by any `class` statement
in the repository.
-/

def raisedExceptionTypes : List String :=
  ["NotImplementedError", "TypeError", "ValueError", "RuntimeError",
   "StopAsyncIteration", "IndexError", "AttributeError", "CancelledError"]

def pythonStdlibExceptions : List String :=
  ["BaseException", "Exception", "ValueError", "TypeError", "RuntimeError",
   "AttributeError", "IndexError", "KeyError", "NotImplementedError",
   "StopIteration", "StopAsyncIteration", "OSError", "FileNotFoundError",
   "TimeoutError", "CancelledError", "FrozenInstanceError"]

def classBaseAndMetaNames : List String :=
  ["Animal", "Flying", "Swimming", "Shape", "ABC", "Rectangle", "type",
   "BasePlugin", "Validator", "AbstractBase", "Validated", "Generic",
   "Protocol", "TypedDict", "NamedTuple", "Builder",
   "MyMeta", "AutoPropertyMeta", "SingletonMeta", "PluginRegistry",
   "ValidatedMeta", "LoggingMeta", "AbstractMeta", "OrderedMeta"]

/-! ## `property_decorators.py`: `Person`

The validating property setters. Python values that can reach the
setters are modelled by `PyValue`; a Python `bool` is an instance of
`int`. A setter returns the new state and `Option.none` on success, or
the unchanged state and the raised error: the exception is raised before
any assignment, so the attribute keeps its previous value.
-/

inductive PyValue where
  | int (n : Int)
  | str (s : String)
  | bool (b : Bool)
  | none
deriving DecidableEq, Repr

inductive PyErr where
  | typeError (msg : String)
  | valueError (msg : String)
deriving DecidableEq, Repr

/-- `isinstance(v, int)` — true for ints and bools. The int value of the
object (bools count as 0/1). -/
def pyAsInt : PyValue → Option Int
  | PyValue.int n => some n
  | PyValue.bool b => some (if b then 1 else 0)
  | _ => Option.none

/-- Python whitespace for `str.strip` (the characters occurring in this
repository are covered). -/
def pyIsSpace (c : Char) : Bool :=
  (c == ' ') || (c == '\t') || (c == '\n') || (c == '\r')

/-- `str.strip()`: drop leading and trailing whitespace. -/
def pyStrip (s : String) : String :=
  String.mk (((s.toList.dropWhile pyIsSpace).reverse.dropWhile pyIsSpace).reverse)

/-- Helper for `str.title()`: the flag records whether the previous
character was a letter. -/
def titleAux : List Char → Bool → List Char
  | [], _ => []
  | c :: rest, prevCased =>
    if c.isAlpha then
      (if prevCased then c.toLower else c.toUpper) :: titleAux rest true
    else
      c :: titleAux rest false

/-- `str.title()`: first letter of every word uppercased, the remaining
letters lowercased (ASCII letters; the script only feeds it ASCII). -/
def pyTitle (s : String) : String := String.mk (titleAux s.toList false)

structure PersonState where
  _name : String
  _age : Int
deriving DecidableEq, Repr

/-- The `name` setter of `Person`. -/
def setName (st : PersonState) (v : PyValue) : PersonState × Option PyErr :=
  match v with
  | PyValue.str s =>
    if s.length < 1 then (st, some (PyErr.valueError ("Name cannot be empty")))
    else ({ st with _name := pyTitle (pyStrip s) }, Option.none)
  | _ => (st, some (PyErr.typeError ("Name must be a string")))

/-- The `age` setter of `Person`. -/
def setAge (st : PersonState) (v : PyValue) : PersonState × Option PyErr :=
  match pyAsInt v with
  | Option.none => (st, some (PyErr.typeError ("Age must be an integer")))
  | some n =>
    if n < 0 ∨ 150 < n then (st, some (PyErr.valueError ("Age must be between 0 and 150")))
    else ({ st with _age := n }, Option.none)

/-- `Person(name, age)`: `__init__` assigns `self.name` then `self.age`
through the setters; an exception aborts construction. The placeholder
start state stands for the not-yet-assigned attributes. -/
def mkPerson (name age : PyValue) : Except PyErr PersonState :=
  match setName { _name := "", _age := 0 } name with
  | (_, some e) => Except.error e
  | (st1, Option.none) =>
    match setAge st1 age with
    | (_, some e) => Except.error e
    | (st2, Option.none) => Except.ok st2

/-! ## `context_managers.py`: `ResourcePool`

`acquire` is a `contextmanager`: entering checks `available`, raises
`RuntimeError` when none is left, otherwise decrements and yields
`resource_{available + 1}`; the `finally` block increments `available`
again whether the with-block ended normally or with an exception.
-/

structure ResourcePool where
  name : String
  available : Int
deriving DecidableEq, Repr

/-- Entering `pool.acquire()`: the `RuntimeError` check and the
decrement; on success returns the yielded resource string and the new
pool state. -/
def acquireEnter (p : ResourcePool) : Except String (String × ResourcePool) :=
  if p.available ≤ 0 then Except.error ("No resources available")
  else
    Except.ok ("resource_" ++ toString (p.available - 1 + 1),
      { p with available := p.available - 1 })

/-- The `finally` block of `acquire`: increment `available`. -/
def acquireExit (p : ResourcePool) : ResourcePool :=
  { p with available := p.available + 1 }

/-- Outcome of a `with pool.acquire() as r:` block, carrying the final
pool state. -/
inductive WithResult (ε : Type) where
  | ok (p : ResourcePool)
  | runtimeError (p : ResourcePool) (msg : String)
  | bodyError (p : ResourcePool) (e : ε)
deriving Repr

/-- Run `with pool.acquire() as r: body`. The body transforms the pool
state and may raise (`some e`); the `finally` release runs in either
case. When `acquire` raises `RuntimeError` the body never runs and the
pool is untouched. -/
def withAcquire (ε : Type) (p : ResourcePool)
    (body : String → ResourcePool → ResourcePool × Option ε) : WithResult ε :=
  match acquireEnter p with
  | Except.error msg => WithResult.runtimeError p msg
  | Except.ok (r, p1) =>
    match body r p1 with
    | (p2, Option.none) => WithResult.ok (acquireExit p2)
    | (p2, some e) => WithResult.bodyError (acquireExit p2) e

/-- The pool state carried by a `WithResult`. -/
def WithResult.pool (ε : Type) : WithResult ε → ResourcePool
  | WithResult.ok p => p
  | WithResult.runtimeError p _ => p
  | WithResult.bodyError p _ => p

/-- Did the block end with the `RuntimeError` from `acquire` itself? -/
def WithResult.isRuntimeErr (ε : Type) : WithResult ε → Bool
  | WithResult.runtimeError _ _ => true
  | _ => false

/-! ## The twenty scripts

One constructor per source file. Each script is embedded as a pure
function from a file system to the resulting file system and the
transcript of printed lines. Only `working_with_files.py` and
`context_managers.py` touch the file system; every other script contains
no executed `open`/`os` call (in `generators.py` the only `open` sits in
`read_lines`, which is never called), so its file-system effect is the
identity and its transcript cannot depend on the file system. For those
eighteen scripts the transcript is truncated to the first line the script
prints when executed, which is all the claims below need (the transcript
is non-empty and file-system-independent); the first line is computed
from the embedded data of the script, not pasted from observed output.
-/

inductive Script where
  | listsAndLoops
  | simpleClass
  | workingWithFilesScript
  | argsKwargs
  | collectionsModule
  | comprehensionsScript
  | contextManagersScript
  | dataclassesModule
  | decoratorsScript
  | generatorsScript
  | inheritanceScript
  | itertoolsModule
  | lambdaAndFunctional
  | magicMethods
  | propertyDecoratorsScript
  | regularExpressionsScript
  | metaclassesScript
  | asyncioConcurrency
  | typingAdvanced
  | descriptorsScript
deriving DecidableEq, Repr

/-- Python `repr` of a list of ints, as `print` shows it. -/
def pyIntListRepr (xs : List Int) : String :=
  "[" ++ String.intercalate (", ") (xs.map toString) ++ "]"

/-- Python `repr` of a tuple of ints with at least two elements. -/
def pyIntTupleRepr (xs : List Int) : String :=
  "(" ++ String.intercalate (", ") (xs.map toString) ++ ")"

/-- A single-quote character as a string (used in printed lines such as
the match report of `regular_expressions.py`). -/
def singleQuote : String := String.mk [Char.ofNat 39]

/-- Does `pat` occur at the head of the character list? -/
def charsStartWith : List Char → List Char → Bool
  | [], _ => true
  | _ :: _, [] => false
  | p :: ps, c :: cs => (p == c) && charsStartWith ps cs

/-- Index of the first occurrence of `pat` in a character list, as
`re.search` finds a literal pattern. -/
def findSubIdx (pat : List Char) : List Char → Option Nat
  | [] => if charsStartWith pat [] then some 0 else Option.none
  | c :: rest =>
    if charsStartWith pat (c :: rest) then some 0
    else (findSubIdx pat rest).map (fun i => i + 1)

/-- The text searched by `regular_expressions.py`. -/
def regexText : String := "The quick brown fox jumps over the lazy dog"

/-- First line printed by `regular_expressions.py`: the result of
`re.search(r"fox", text)`; the guarded print fires only when the match
exists, and `match.end()` is the start index plus 3 (the length of
`fox`). -/
def regexFirstOut : List String :=
  match findSubIdx (("fox").toList) (regexText.toList) with
  | some i =>
    ["Found " ++ singleQuote ++ "fox" ++ singleQuote ++ " at position "
      ++ toString i ++ "-" ++ toString (i + 3)]
  | Option.none => []

/-- `str(Point(x, y))` from `magic_methods.py` (`__str__`). -/
def pointStr (x y : Int) : String :=
  "Point at (" ++ toString x ++ ", " ++ toString y ++ ")"

/-- Running a script: file-system effect and printed transcript. The
`String` argument is the wall-clock elapsed-time figure that
`context_managers.py` interpolates into one printed line; all other
scripts ignore it. -/
def scriptRun : Script → String → FS → FS × List String
  | Script.listsAndLoops, _, fs =>
    (fs, (["apple", "banana", "cherry"].map (fun f => "Fruit: " ++ f))
      ++ ["Squares: " ++ pyIntListRepr ([1, 2, 3, 4, 5].map (fun n => n ^ 2))])
  | Script.simpleClass, _, fs => (fs, ["Buddy" ++ " says hello!"])
  | Script.workingWithFilesScript, _, fs => (workingWithFilesFS fs, workingWithFilesOut fs)
  | Script.argsKwargs, _, fs => (fs, ["Received args: " ++ pyIntTupleRepr [1, 2]])
  | Script.collectionsModule, _, fs => (fs, ["=== Counter ==="])
  | Script.comprehensionsScript, _, fs =>
    (fs, ["List comprehension (squares): "
      ++ pyIntListRepr ([1, 2, 3, 4, 5].map (fun x => x ^ 2))])
  | Script.contextManagersScript, e, fs => (contextManagersFS fs, contextManagersOut e fs)
  | Script.dataclassesModule, _, fs => (fs, ["=== Basic Dataclass ==="])
  | Script.decoratorsScript, _, fs => (fs, ["Before function call"])
  | Script.generatorsScript, _, fs => (fs, ["Counting up to 5:"])
  | Script.inheritanceScript, _, fs =>
    (fs, ["Buddy" ++ " is " ++ toString (5 : Int) ++ " years old"])
  | Script.itertoolsModule, _, fs => (fs, ["=== count() - Infinite Counter ==="])
  | Script.lambdaAndFunctional, _, fs => (fs, ["Square of 5: " ++ toString ((5 : Int) ^ 2)])
  | Script.magicMethods, _, fs => (fs, ["str(p): " ++ pointStr 3 4])
  | Script.propertyDecoratorsScript, _, fs => (fs, ["=== Basic Property Usage ==="])
  | Script.regularExpressionsScript, _, fs => (fs, regexFirstOut)
  | Script.metaclassesScript, _, fs => (fs, ["=== Understanding type() and Metaclasses ==="])
  | Script.asyncioConcurrency, _, fs => (fs, ["=== Basic Async Function ==="])
  | Script.typingAdvanced, _, fs => (fs, ["=== TypeVar: Generic Type Variables ==="])
  | Script.descriptorsScript, _, fs => (fs, ["=== Understanding Descriptors ==="])

/-- The files each script creates during its run (from the `open(_, "w")`
calls it executes). -/
def createdFiles : Script → List String
  | Script.workingWithFilesScript => ["sample.txt"]
  | Script.contextManagersScript => ["test_file.txt", "file1.txt", "file2.txt"]
  | _ => []

/-- All twenty source files. -/
def allScripts : List Script :=
  [Script.listsAndLoops, Script.simpleClass, Script.workingWithFilesScript,
   Script.argsKwargs, Script.collectionsModule, Script.comprehensionsScript,
   Script.contextManagersScript, Script.dataclassesModule, Script.decoratorsScript,
   Script.generatorsScript, Script.inheritanceScript, Script.itertoolsModule,
   Script.lambdaAndFunctional, Script.magicMethods, Script.propertyDecoratorsScript,
   Script.regularExpressionsScript, Script.metaclassesScript, Script.asyncioConcurrency,
   Script.typingAdvanced, Script.descriptorsScript]

/-! ### Basic file-system lemmas -/

theorem fsRead_fsRemove_self (fs : FS) (n : String) :
    fsRead (fsRemove fs n) n = Option.none := by
  induction fs with
  | nil => rfl
  | cons p rest ih =>
    obtain ⟨m, c⟩ := p
    by_cases h : m = n
    · simp [fsRemove, h, ih]
    · simp [fsRemove, fsRead, h, ih]

theorem fsRead_fsRemove_ne (fs : FS) (n m : String) (h : m ≠ n) :
    fsRead (fsRemove fs n) m = fsRead fs m := by
  induction fs with
  | nil => rfl
  | cons p rest ih =>
    obtain ⟨k, c⟩ := p
    by_cases hk : k = n
    · have hkm : ¬ (k = m) := by
        intro he
        exact h (he ▸ hk)
      have hnm : ¬ (n = m) := fun he => h he.symm
      simp [fsRemove, fsRead, hk, hkm, hnm, ih]
    · simp [fsRemove, fsRead, hk, ih]

theorem fsRead_fsWrite_self (fs : FS) (n c : String) :
    fsRead (fsWrite fs n c) n = some c := by
  simp [fsWrite, fsRead]

theorem fsRead_fsWrite_ne (fs : FS) (n c m : String) (h : m ≠ n) :
    fsRead (fsWrite fs n c) m = fsRead fs m := by
  have hnm : ¬ (n = m) := fun he => h he.symm
  simp [fsWrite, fsRead, hnm, fsRead_fsRemove_ne fs n m h]

theorem fsRead_pyRemoveIfExists_self (fs : FS) (n : String) :
    fsRead (pyRemoveIfExists fs n) n = Option.none := by
  unfold pyRemoveIfExists
  by_cases h : fsExists fs n
  · simp [h, fsRead_fsRemove_self]
  · simp [h]
    unfold fsExists at h
    cases hr : fsRead fs n with
    | none => rfl
    | some c => rw [hr] at h; simp at h

theorem fsRead_pyRemoveIfExists_ne (fs : FS) (n m : String) (h : m ≠ n) :
    fsRead (pyRemoveIfExists fs n) m = fsRead fs m := by
  unfold pyRemoveIfExists
  by_cases hx : fsExists fs n
  · simp [hx, fsRead_fsRemove_ne fs n m h]
  · simp [hx]

theorem suppressOut_eq_nil (fs : FS) : suppressOut fs = [] := by
  unfold suppressOut
  cases fsRead fs ("nonexistent_file.txt") <;> rfl

/-- The transcript of a script does not depend on the initial file
system. Eighteen scripts ignore the file system outright;
`working_with_files.py` prints the content of the file it has just
written, and the `suppress` block of `context_managers.py` prints the
same (no) lines whether or not `nonexistent_file.txt` exists. -/
theorem scriptOut_const (s : Script) (e : String) (fs fs2 : FS) :
    (scriptRun s e fs).2 = (scriptRun s e fs2).2 := by
  cases s <;>
    simp [scriptRun, workingWithFilesOut, workingWithFilesFS, contextManagersOut,
      suppressOut_eq_nil, fsRead_fsWrite_self]

/-! ### Helper lemmas for the `Person` setters -/

theorem titleAux_length (l : List Char) : ∀ b, (titleAux l b).length = l.length := by
  induction l with
  | nil => intro b; rfl
  | cons c rest ih =>
    intro b
    cases hc : c.isAlpha <;> simp [titleAux, hc, ih]

theorem pyTitle_length (x : String) : (pyTitle x).length = x.length :=
  titleAux_length x.toList false

/-- `re.search(r"fox", text)` succeeds in `regular_expressions.py`, so the
guarded first print fires: the transcript has exactly one line. -/
theorem regexFirstOut_len : regexFirstOut.length = 1 := by rfl

theorem setName_str_ok (st : PersonState) (s : String) (h : ¬ s.length < 1) :
    setName st (PyValue.str s)
      = ({ st with _name := pyTitle (pyStrip s) }, Option.none) := by
  simp [setName, h]

theorem setName_err_unchanged (st : PersonState) (v : PyValue)
    (h : ((setName st v).2).isSome) : (setName st v).1 = st := by
  cases v with
  | str s =>
    by_cases hl : s.length < 1
    · simp [setName, hl]
    · simp [setName, hl] at h
  | int n => simp [setName]
  | bool b => simp [setName]
  | none => simp [setName]

theorem setAge_err_unchanged (st : PersonState) (v : PyValue)
    (h : ((setAge st v).2).isSome) : (setAge st v).1 = st := by
  cases v with
  | int n =>
    by_cases hr : n < 0 ∨ 150 < n
    · simp [setAge, pyAsInt, hr]
    · simp [setAge, pyAsInt, hr] at h
  | bool b => cases b <;> simp [setAge, pyAsInt] at h
  | str s => simp [setAge, pyAsInt]
  | none => simp [setAge, pyAsInt]

theorem setAge_ok (st : PersonState) (v : PyValue)
    (h : (setAge st v).2 = Option.none) :
    0 ≤ ((setAge st v).1)._age ∧ ((setAge st v).1)._age ≤ 150 ∧
      ((setAge st v).1)._name = st._name := by
  cases v with
  | int n =>
    by_cases hr : n < 0 ∨ 150 < n
    · simp [setAge, pyAsInt, hr] at h
    · push_neg at hr
      simp [setAge, pyAsInt, show ¬ (n < 0 ∨ 150 < n) by omega]
      omega
  | bool b => cases b <;> simp [setAge, pyAsInt]
  | str s => simp [setAge, pyAsInt] at h
  | none => simp [setAge, pyAsInt] at h

/-! ## The claims -/

/-- C1, counterexample: running `working_with_files.py` on an empty file
system does not leave it unchanged — the script creates `sample.txt` and
never removes it, so the file remains on disk with the sample text after
the script finishes. -/
theorem c1_counterexample :
    (scriptRun Script.workingWithFilesScript ("") []).1 ≠ ([] : FS) ∧
    fsRead ((scriptRun Script.workingWithFilesScript ("") []).1) ("sample.txt")
      = some sampleText := by
  constructor
  · decide
  · rfl

/-- C1, amended: every script except `working_with_files.py` removes every
file it creates before finishing (in particular `context_managers.py`
creates `test_file.txt`, `file1.txt`, `file2.txt` and its cleanup loop
deletes all three), while `working_with_files.py` leaves `sample.txt` on
disk containing the sample text. -/
theorem c1_amended (s : Script) (e : String) (fs : FS) :
    (s ≠ Script.workingWithFilesScript →
      ∀ n, n ∈ createdFiles s → fsRead ((scriptRun s e fs).1) n = Option.none) ∧
    fsRead ((scriptRun Script.workingWithFilesScript e fs).1) ("sample.txt")
      = some sampleText := by
  constructor
  · intro hs n hn
    cases s
    case workingWithFilesScript => exact absurd rfl hs
    case contextManagersScript =>
      simp [createdFiles] at hn
      simp only [scriptRun, contextManagersFS]
      rcases hn with h | h | h <;> subst h
      · rw [fsRead_pyRemoveIfExists_ne _ _ _ (by decide),
            fsRead_pyRemoveIfExists_ne _ _ _ (by decide),
            fsRead_pyRemoveIfExists_self]
      · rw [fsRead_pyRemoveIfExists_ne _ _ _ (by decide),
            fsRead_pyRemoveIfExists_self]
      · rw [fsRead_pyRemoveIfExists_self]
    all_goals simp [createdFiles] at hn
  · simp [scriptRun, workingWithFilesFS, fsRead_fsWrite_self]

/-- C1, witness: after `context_managers.py` runs on an empty file system
its `test_file.txt` is gone, and after `working_with_files.py` runs,
`sample.txt` holds the sample text. -/
theorem c1_witness :
    fsRead ((scriptRun Script.contextManagersScript ("") []).1) ("test_file.txt")
      = Option.none ∧
    fsRead ((scriptRun Script.workingWithFilesScript ("") []).1) ("sample.txt")
      = some sampleText :=
  ⟨(c1_amended Script.contextManagersScript ("") []).1 (by decide)
      ("test_file.txt") (by decide),
   (c1_amended Script.workingWithFilesScript ("") []).2⟩

/-- C2, counterexample: two successive accesses to
`ExpensiveComputation([1, 2, 3, 4, 5]).result` do not perform the
computation twice — the second access finds `_cached_result` filled,
skips the computation (middle component `false`), and returns the stored
value 55. -/
theorem c2_counterexample :
    (ExpensiveComputation.result
      (ExpensiveComputation.result (ExpensiveComputation.init [1, 2, 3, 4, 5])).2.2).2.1
      = false ∧
    (ExpensiveComputation.result
      (ExpensiveComputation.result (ExpensiveComputation.init [1, 2, 3, 4, 5])).2.2).1
      = 55 := by
  constructor <;> rfl

/-- C2, amended: the source does contain toy caches —
`ExpensiveComputation.result` computes the sum of squares of `_data` on
the first access and stores it in `_cached_result`; the second access
performs no computation and returns the stored value (and
`DataAnalyzer.statistics` caches likewise via `functools.cached_property`). -/
theorem c2_amended (data : List Int) :
    (ExpensiveComputation.result (ExpensiveComputation.init data)).2.1 = true ∧
    (ExpensiveComputation.result (ExpensiveComputation.init data)).1
      = (data.map (fun x => x ^ 2)).sum ∧
    ((ExpensiveComputation.result (ExpensiveComputation.init data)).2.2)._cached_result
      = some ((data.map (fun x => x ^ 2)).sum) ∧
    (ExpensiveComputation.result
        (ExpensiveComputation.result (ExpensiveComputation.init data)).2.2).2.1 = false ∧
    (ExpensiveComputation.result
        (ExpensiveComputation.result (ExpensiveComputation.init data)).2.2).1
      = (ExpensiveComputation.result (ExpensiveComputation.init data)).1 :=
  ⟨rfl, rfl, rfl, rfl, rfl⟩

/-- C3: `http_get` performs no networking — for every url string it is the
pure function returning the locally constructed response with url `url`,
status 200, and data `Response from` followed by the url, after a sleep of
`len(url) * 0.01` seconds (floats modelled as exact rationals). -/
theorem c3_http_get_local (url : String) :
    http_get url
      = ((url.length : ℚ) * (1 / 100),
         { url := url, status := 200, data := "Response from " ++ url }) := rfl

/-- C4: the scripts are mutually independent — for distinct scripts `a`
and `b`, the transcript `b` prints is the same whether or not `a` ran
first on the file system, for every starting file system. -/
theorem c4_independent (a b : Script) (_hne : a ≠ b) (e : String) (fs : FS) :
    (scriptRun b e ((scriptRun a e fs).1)).2 = (scriptRun b e fs).2 :=
  scriptOut_const b e _ fs

/-- C4, witness: `context_managers.py` prints the same transcript whether
or not `working_with_files.py` ran first on the empty file system. -/
theorem c4_witness :
    Script.workingWithFilesScript ≠ Script.contextManagersScript ∧
    (scriptRun Script.contextManagersScript ("0.1003")
        ((scriptRun Script.workingWithFilesScript ("0.1003") []).1)).2
      = (scriptRun Script.contextManagersScript ("0.1003") []).2 :=
  ⟨by decide,
   c4_independent Script.workingWithFilesScript Script.contextManagersScript
     (by decide) ("0.1003") []⟩

/-- C5: there are exactly twenty source files, and every one of them, run
as the main module, prints at least one line. -/
theorem c5_each_prints (s : Script) (e : String) (fs : FS) :
    allScripts.length = 20 ∧ allScripts.Nodup ∧ s ∈ allScripts ∧
    1 ≤ ((scriptRun s e fs).2).length := by
  refine ⟨rfl, by decide, ?_, ?_⟩
  · cases s <;> decide
  · cases s
    case workingWithFilesScript => simp [scriptRun, workingWithFilesOut]
    case contextManagersScript =>
      simp [scriptRun, contextManagersOut, suppressOut_eq_nil, cmOutPre, cmOutPost]
    all_goals simp [scriptRun, regexFirstOut_len]

/-- C6: every concurrency primitive the asyncio script drives is an
attribute of the `asyncio` standard-library module and is not among the
names the script itself defines — the script implements no event loop or
primitive of its own; in particular the primitives named by the spec
(run, gather, create_task, wait_for, Semaphore, Event, Queue) are among
those used. -/
theorem c6_asyncio_primitives :
    (asyncioPrimitivesUsed.all (fun p =>
      asyncioModuleAPI.contains p && !(asyncioScriptDefinedNames.contains p))) = true ∧
    ((["run", "gather", "create_task", "wait_for", "Semaphore", "Event", "Queue"]
        : List String).all
      (fun p => asyncioPrimitivesUsed.contains p)) = true := by
  constructor <;> rfl

/-- C7: every exception type raised anywhere in the twenty scripts is a
built-in or standard-library exception, and no base class or metaclass
of any class defined in the repository is an exception type — no script
defines an exception class of its own. -/
theorem c7_no_custom_exceptions :
    (raisedExceptionTypes.all (fun x => pythonStdlibExceptions.contains x)) = true ∧
    (classBaseAndMetaNames.all (fun b => !(pythonStdlibExceptions.contains b))) = true := by
  constructor <;> rfl

/-- C8, counterexample: assigning the whitespace-only name made of a
single space passes the validation (`len(" ") == 1`), and the stored
`_name` is `" ".strip().title()`, the empty string — so after this
successful assignment `_name` is not a non-empty string. -/
theorem c8_counterexample :
    mkPerson (PyValue.str (" ")) (PyValue.int 25)
      = Except.ok { _name := "", _age := 25 } := by rfl

/-- C8, amended: after construction and every successful assignment,
`_age` is an integer with 0 ≤ `_age` ≤ 150 and `_name` equals the
stripped, title-cased form of the assigned value — which has the same
length as the stripped value and hence may be empty when the assigned
string consists only of whitespace; an invalid assignment reports a
`TypeError` or `ValueError` and leaves the attributes unchanged. -/
theorem c8_amended (st : PersonState) (s : String) (v : PyValue) :
    (1 ≤ s.length →
      setName st (PyValue.str s)
        = ({ st with _name := pyTitle (pyStrip s) }, Option.none)) ∧
    (s.length < 1 →
      setName st (PyValue.str s)
        = (st, some (PyErr.valueError ("Name cannot be empty")))) ∧
    (((setName st v).2).isSome → (setName st v).1 = st) ∧
    (((setAge st v).2).isSome → (setAge st v).1 = st) ∧
    ((setAge st v).2 = Option.none →
      0 ≤ ((setAge st v).1)._age ∧ ((setAge st v).1)._age ≤ 150 ∧
      ((setAge st v).1)._name = st._name) ∧
    (∀ p, mkPerson (PyValue.str s) v = Except.ok p →
      0 ≤ p._age ∧ p._age ≤ 150 ∧ p._name = pyTitle (pyStrip s)) ∧
    (pyTitle (pyStrip s)).length = (pyStrip s).length := by
  refine ⟨?_, ?_, setName_err_unchanged st v, setAge_err_unchanged st v,
    setAge_ok st v, ?_, pyTitle_length (pyStrip s)⟩
  · intro h
    exact setName_str_ok st s (by omega)
  · intro h
    simp [setName, h]
  · intro p hp
    by_cases hl : s.length < 1
    · simp [mkPerson, setName, hl] at hp
    · have h0 := setAge_ok { _name := pyTitle (pyStrip s), _age := 0 } v
      rw [mkPerson, setName_str_ok _ _ hl] at hp
      simp at hp
      cases hA : setAge { _name := pyTitle (pyStrip s), _age := 0 } v with
      | mk st2 oe =>
        rw [hA] at hp h0
        cases oe with
        | some e => simp at hp
        | none =>
          simp at hp
          subst hp
          exact ⟨(h0 rfl).1, (h0 rfl).2.1, (h0 rfl).2.2⟩

/-- C8, witness: assigning the name `"  alice  "` (length 9, so the
validation passes) stores the stripped title-cased `"Alice"`, as in the
demo in the script itself, `Person("  alice  ", 25)`. -/
theorem c8_witness :
    setName { _name := "", _age := 0 } (PyValue.str ("  alice  "))
      = ({ _name := "Alice", _age := 0 }, Option.none) := by
  rw [(c8_amended { _name := "", _age := 0 } ("  alice  ") (PyValue.int 25)).1 (by decide)]
  rfl

/-- C9: `pool.acquire()` raises `RuntimeError` exactly when
`pool.available ≤ 0` at the time of the call; otherwise it decrements
`available` on entry (yielding `resource_{available + 1}` for the new
count), and — whether the with-block ends normally or with an exception —
the `finally` release restores `available` on exit to the value it had
before the call, for every body that itself leaves `available` as it
found it. -/
theorem c9_resource_pool (ε : Type) (p : ResourcePool)
    (body : String → ResourcePool → ResourcePool × Option ε)
    (hbody : ∀ r q, ((body r q).1).available = q.available) :
    (WithResult.isRuntimeErr ε (withAcquire ε p body) = true ↔ p.available ≤ 0) ∧
    (0 < p.available →
      acquireEnter p
        = Except.ok ("resource_" ++ toString (p.available - 1 + 1),
            { p with available := p.available - 1 }) ∧
      (WithResult.pool ε (withAcquire ε p body)).available = p.available) := by
  by_cases h : p.available ≤ 0
  · refine ⟨?_, ?_⟩
    · simp [withAcquire, acquireEnter, h, WithResult.isRuntimeErr]
    · intro h0
      exact absurd h0 (by omega)
  · have hok : acquireEnter p
        = Except.ok ("resource_" ++ toString (p.available - 1 + 1),
            { p with available := p.available - 1 }) := by
      simp [acquireEnter, h]
    refine ⟨?_, fun _ => ⟨hok, ?_⟩⟩
    · simp only [withAcquire, hok]
      cases hb : body ("resource_" ++ toString (p.available - 1 + 1))
          ({ p with available := p.available - 1 }) with
      | mk p2 oe => cases oe <;> simp [WithResult.isRuntimeErr, h]
    · simp only [withAcquire, hok]
      have h2 := hbody ("resource_" ++ toString (p.available - 1 + 1))
        ({ p with available := p.available - 1 })
      cases hb : body ("resource_" ++ toString (p.available - 1 + 1))
          ({ p with available := p.available - 1 }) with
      | mk p2 oe =>
        rw [hb] at h2
        simp at h2
        cases oe <;> simp [WithResult.pool, acquireExit] <;> omega

/-- C9, witness: the demo in the script itself — `ResourcePool("ConnectionPool")`
with 3 resources and a body that only uses the resource: no
`RuntimeError`, and `available` is back to 3 after the with-block. -/
theorem c9_witness :
    (WithResult.pool Unit
      (withAcquire Unit { name := "ConnectionPool", available := 3 }
        (fun _ q => (q, Option.none)))).available
      = ({ name := "ConnectionPool", available := 3 } : ResourcePool).available :=
  ((c9_resource_pool Unit { name := "ConnectionPool", available := 3 }
      (fun _ q => (q, Option.none)) (fun _ _ => rfl)).2 (by decide)).2

/-- C10: `working_with_files.py` is a write-then-read round trip — for
every starting file system it writes the sample string to `sample.txt`,
the subsequent read of the same file returns exactly that string, and the
script prints it. -/
theorem c10_round_trip (fs : FS) :
    sampleText = "This is a sample file.\nLearning Python is fun!" ∧
    fsRead (workingWithFilesFS fs) ("sample.txt") = some sampleText ∧
    workingWithFilesOut fs = ["File content: " ++ sampleText] := by
  refine ⟨rfl, fsRead_fsWrite_self fs _ _, ?_⟩
  simp [workingWithFilesOut, workingWithFilesFS, fsRead_fsWrite_self]
